import Mathlib

/-!
# Verification of the RustAPI example applications

Shallow embedding of the handler and database logic authored in the
RustAPI-examples repository (hello-world, graphql-api, microservices,
phase11-demo, cors-test, rate-limit-demo, templates), together with proofs
about that logic.

Modelling conventions:
* Rust `u64` / `u32` values are modelled as `Nat`.
* `std::collections::HashMap<u64, V>` is modelled as an association list with
  unique keys; `insert` replaces any existing binding for the key, matching
  `HashMap::insert`.
* `Arc<RwLock<_>>`-guarded state is modelled by explicit state passing: each
  `Database` method is a function from the pre-state to its result together
  with the post-state (the lock makes each method's critical sections atomic).
  Lock acquisition/release ordering, where it matters, is modelled separately
  as an event trace derived from Rust guard-drop semantics.
* A handler that can panic (`unwrap`) is modelled as returning `Option`:
  `none` is the panic aborting the request, `some r` the produced response.
-/

namespace RustApiExamples

/-! ## Hello-world example (src/hello-world/src/main.rs)

```rust
struct Message { greeting: String }

async fn hello(Path(name): Path<String>) -> Json<Message> {
    Json(Message { greeting: format!("Hello, {name}!") })
}
```
-/

structure Message where
  greeting : String
  deriving Repr, DecidableEq

/-- The `hello` handler: `format!("Hello, {name}!")` builds the greeting by
concatenating the literal text around the interpolated `name`. -/
def hello (name : String) : Message :=
  { greeting := "Hello, " ++ name ++ "!" }

/-! ## GraphQL example: data model (src/graphql-api/src/main.rs) -/

structure Book where
  id : Nat
  title : String
  author : String
  year : Nat
  deriving Repr, DecidableEq

structure Author where
  id : Nat
  name : String
  bio : String
  deriving Repr, DecidableEq

/-- `HashMap::insert(k, v)`: any existing binding for `k` is replaced; the
model removes entries with key `k` and appends the new binding. -/
def hmInsert {V : Type} (m : List (Nat × V)) (k : Nat) (v : V) :
    List (Nat × V) :=
  m.filter (fun p => p.1 ≠ k) ++ [(k, v)]

/-- `HashMap::get(&k).cloned()`: the binding for key `k`, if any. -/
def hmLookup {V : Type} (m : List (Nat × V)) (k : Nat) : Option V :=
  (m.find? (fun p => p.1 == k)).map Prod.snd

/-- `HashMap::values().cloned().collect()`: all stored values. -/
def hmValues {V : Type} (m : List (Nat × V)) : List V :=
  m.map Prod.snd

/-- The `Database` struct: two maps and the two identifier counters.  The
`Arc<RwLock<_>>` wrappers are erased; methods below are atomic state
transformers on this record. -/
structure Database where
  books : List (Nat × Book)
  authors : List (Nat × Author)
  next_book_id : Nat
  next_author_id : Nat
  deriving Repr, DecidableEq

/-- `Database::new()`: seeds books 1 and 2, author 1, and the counters 3 / 2. -/
def Database.new : Database :=
  { books :=
      hmInsert
        (hmInsert []
          1
          { id := 1, title := "The Rust Programming Language",
            author := "Steve Klabnik", year := 2018 })
        2
        { id := 2, title := "Programming Rust",
          author := "Jim Blandy", year := 2021 },
    authors :=
      hmInsert []
        1
        { id := 1, name := "Steve Klabnik", bio := "Rust core team member" },
    next_book_id := 3,
    next_author_id := 2 }

/-- `Database::get_book`: reads the books map, returns the cloned binding for
`id`; the shared borrow leaves the state unchanged. -/
def Database.get_book (db : Database) (id : Nat) : Option Book × Database :=
  (hmLookup db.books id, db)

/-- `Database::get_all_books`: reads the books map and collects its values. -/
def Database.get_all_books (db : Database) : List Book × Database :=
  (hmValues db.books, db)

/-- `Database::add_book`: reads the `next_book_id` counter as `id`, increments
the counter, builds the `Book` from `id` and the arguments, inserts it into
the books map under `id`, and returns the book. -/
def Database.add_book (db : Database) (title author : String) (year : Nat) :
    Book × Database :=
  let id := db.next_book_id
  let book : Book := { id := id, title := title, author := author, year := year }
  (book,
    { db with
        books := hmInsert db.books id book,
        next_book_id := id + 1 })

/-- `str::to_lowercase()`, modelled as per-character lowercasing (both the
code and the properties below apply the same operation to both sides). -/
def toLowercase (s : String) : String :=
  ⟨s.data.map Char.toLower⟩

/-- Whether the first list is an initial segment of the second. -/
def leadsList (needle hay : List Char) : Bool :=
  match needle, hay with
  | [], _ => true
  | _ :: _, [] => false
  | c :: cs, d :: ds => c == d && leadsList cs ds

/-- `str::contains(needle)`: some suffix of the haystack starts with the
needle (textbook substring search). -/
def containsSub : List Char → List Char → Bool
  | needle, [] => needle.isEmpty
  | needle, d :: ds => leadsList needle (d :: ds) || containsSub needle ds

/-- Rust `hay.contains(&needle)` on strings. -/
def strContains (hay needle : String) : Bool :=
  containsSub needle.data hay.data

/-- `QueryRoot::search_books`: fetches all books and keeps those whose
lowercased title contains the lowercased query. -/
def QueryRoot.search_books (db : Database) (query : String) :
    List Book × Database :=
  let all := db.get_all_books
  ((all.1).filter
      (fun book => strContains (toLowercase book.title) (toLowercase query)),
    all.2)

/-- The database invariant of the GraphQL catalogue: `next_book_id` is
strictly greater than every key of the books map, and the keys are pairwise
distinct (no two books share an id). -/
def Database.BookInv (db : Database) : Prop :=
  (∀ k ∈ db.books.map Prod.fst, k < db.next_book_id) ∧
    (db.books.map Prod.fst).Nodup

instance (db : Database) : Decidable db.BookInv := by
  unfold Database.BookInv; infer_instance

/-- States reachable from the seeded `Database.new` by `add_book` calls. -/
inductive Database.Reachable : Database → Prop
  | seed : Database.Reachable Database.new
  | step (db : Database) (title author : String) (year : Nat) :
      Database.Reachable db →
      Database.Reachable (db.add_book title author year).2

/-- Runs a sequence of `add_book` calls (title, author, year), returning the
final state and the books the calls returned, in call order. -/
def runAdds (db : Database) :
    List (String × String × Nat) → Database × List Book
  | [] => (db, [])
  | (t, a, y) :: rest =>
    let step := db.add_book t a y
    let tail := runAdds step.2 rest
    (tail.1, step.1 :: tail.2)

/-! ## GraphQL example: lock event traces

Rust guard-drop semantics decide when each `RwLock` guard is released:
* In `get_book` / `get_all_books`, the `self.books.read().unwrap()` guard is a
  temporary dropped at the end of its statement.
* In `add_book`, the guard `id_lock = self.next_book_id.write().unwrap()` is
  a `let`-bound local dropped only when the function returns — after the
  `self.books.write().unwrap().insert(id, book.clone())` statement, whose own
  guard is a temporary dropped at the end of that statement.
-/

inductive LockId
  | booksLock
  | authorsLock
  | nextBookIdLock
  | nextAuthorIdLock
  deriving Repr, DecidableEq, BEq

inductive LockEvent
  | acquireRead (l : LockId)
  | releaseRead (l : LockId)
  | acquireWrite (l : LockId)
  | releaseWrite (l : LockId)
  deriving Repr, DecidableEq

/-- Whether the event acquires the given lock (in either mode). -/
def LockEvent.acquires (e : LockEvent) (l : LockId) : Bool :=
  match e with
  | .acquireRead m => m == l
  | .acquireWrite m => m == l
  | _ => false

/-- Whether the event releases the given lock (in either mode). -/
def LockEvent.releases (e : LockEvent) (l : LockId) : Bool :=
  match e with
  | .releaseRead m => m == l
  | .releaseWrite m => m == l
  | _ => false

/-- Lock event trace of `Database::add_book`: the counter guard is acquired
first and, being `let`-bound, released only at function return; the books
write guard is acquired and released inside the insert statement. -/
def add_book_lock_trace : List LockEvent :=
  [.acquireWrite .nextBookIdLock,
   .acquireWrite .booksLock,
   .releaseWrite .booksLock,
   .releaseWrite .nextBookIdLock]

/-- Lock event trace of `Database::get_book`: the read guard is a temporary
released at the end of the lookup statement. -/
def get_book_lock_trace : List LockEvent :=
  [.acquireRead .booksLock, .releaseRead .booksLock]

/-- Lock event trace of `Database::get_all_books`. -/
def get_all_books_lock_trace : List LockEvent :=
  [.acquireRead .booksLock, .releaseRead .booksLock]

/-- Whether, in the trace, lock `l1` is released (for the first time) strictly
before lock `l2` is acquired (for the first time). -/
def releasedBeforeAcquired (tr : List LockEvent) (l1 l2 : LockId) : Bool :=
  match tr.findIdx? (fun e => e.releases l1),
      tr.findIdx? (fun e => e.acquires l2) with
  | some i, some j => i < j
  | _, _ => false

/-- Whether lock `l1` is still held (acquired and not yet released) at the
point where the trace first acquires lock `l2`. -/
def heldWhenAcquired (tr : List LockEvent) (l1 l2 : LockId) : Bool :=
  match tr.findIdx? (fun e => e.acquires l2) with
  | some j =>
    let pre := tr.take j
    pre.countP (fun e => e.releases l1) < pre.countP (fun e => e.acquires l1)
  | none => false

def allLockIds : List LockId :=
  [.booksLock, .authorsLock, .nextBookIdLock, .nextAuthorIdLock]

/-- Every lock acquired in the trace is released within it, and vice versa:
the operation holds no lock across its own boundary. -/
def lockScopedToOperation (tr : List LockEvent) : Bool :=
  allLockIds.all fun l =>
    tr.countP (fun e => e.acquires l) == tr.countP (fun e => e.releases l)

/-! ## GraphQL example: handlers -/

/-- The `GraphQLResponse` wrapper returned by `graphql_handler`. -/
structure GraphQLResponse where
  response : String
  deriving Repr, DecidableEq

/-- `graphql_handler` after `schema.execute(&query)` (external engine): the
result of `serde_json::to_string(&response)` is the handler's remaining
input.  `some s` is successful serialization; `none` makes the `.unwrap()`
panic, modelled as the `none` outcome. -/
def graphql_handler_run (serialized : Option String) :
    Option GraphQLResponse :=
  match serialized with
  | some s => some { response := s }
  | none => none

/-- `Database::get_book` with the lock-acquisition outcome explicit:
`self.books.read().unwrap()` panics (outcome `none`) when the lock is
poisoned, and otherwise performs the lookup. -/
def get_book_run (poisoned : Bool) (db : Database) (id : Nat) :
    Option (Option Book) :=
  if poisoned then none else some (db.get_book id).1

/-! ## Microservices example (src/microservices/src/main.rs) -/

/-- An `f64` carried opaquely as its 64-bit pattern; the gateway performs no
arithmetic on it, it is only relayed. -/
structure F64 where
  bits : Nat
  deriving Repr, DecidableEq

structure User where
  id : Nat
  name : String
  email : String
  deriving Repr, DecidableEq

structure Order where
  id : Nat
  user_id : Nat
  product : String
  amount : F64
  deriving Repr, DecidableEq

/-- A `serde_json::Value`. -/
inductive Json
  | str (s : String)
  | num (n : Nat)
  | fnum (x : F64)
  | obj (fields : List (String × Json))
  deriving Repr

/-- `serde_json::to_value` on the derived `Serialize` for `User`. -/
def User.toJson (u : User) : Json :=
  .obj [("id", .num u.id), ("name", .str u.name), ("email", .str u.email)]

/-- `serde_json::to_value` on the derived `Serialize` for `Order`. -/
def Order.toJson (o : Order) : Json :=
  .obj [("id", .num o.id), ("user_id", .num o.user_id),
        ("product", .str o.product), ("amount", .fnum o.amount)]

structure GatewayResponse where
  service : String
  data : Json
  deriving Repr

/-- The URL `proxy_get_user` builds for a given id. -/
def user_service_url (id : Nat) : String :=
  "http://127.0.0.1:8081/users/" ++ toString id

/-- The URL `proxy_get_order` builds for a given id. -/
def order_service_url (id : Nat) : String :=
  "http://127.0.0.1:8082/orders/" ++ toString id

/-- The outbound requests `proxy_get_user` sends for one inbound request:
exactly the single `client.get(...).send()` call in its body. -/
def proxy_get_user_requests (id : Nat) : List String :=
  [user_service_url id]

/-- The outbound requests `proxy_get_order` sends for one inbound request. -/
def proxy_get_order_requests (id : Nat) : List String :=
  [order_service_url id]

/-- The response `proxy_get_user` builds once the upstream body has been
decoded into `u : User`. -/
def proxy_get_user_response (u : User) : GatewayResponse :=
  { service := "user-service", data := u.toJson }

/-- The response `proxy_get_order` builds once the upstream body has been
decoded into `o : Order`. -/
def proxy_get_order_response (o : Order) : GatewayResponse :=
  { service := "order-service", data := o.toJson }

/-- All outbound requests the gateway's user route sends across a sequence of
inbound requests, in order.  The handler keeps no state between calls. -/
def gateway_user_trace (ids : List Nat) : List String :=
  (ids.map proxy_get_user_requests).flatten

/-- All outbound requests the gateway's order route sends across a sequence
of inbound requests, in order. -/
def gateway_order_trace (ids : List Nat) : List String :=
  (ids.map proxy_get_order_requests).flatten

/-- Outcome of the outbound fetch-and-decode in a gateway handler. -/
inductive Fetched (α : Type)
  | ok (a : α)
  | sendError
  | decodeError
  deriving Repr, DecidableEq

/-- `proxy_get_user` with the fallible steps explicit: `.send().await.unwrap()`
and `.json().await.unwrap()` panic (outcome `none`) on a send or decode
failure; on success the handler builds the `GatewayResponse`. -/
def proxy_get_user_run (r : Fetched User) : Option GatewayResponse :=
  match r with
  | .ok u => some (proxy_get_user_response u)
  | .sendError => none
  | .decodeError => none

/-- `proxy_get_order` with the fallible steps explicit. -/
def proxy_get_order_run (r : Fetched Order) : Option GatewayResponse :=
  match r with
  | .ok o => some (proxy_get_order_response o)
  | .sendError => none
  | .decodeError => none

/-! ## Phase 11 demo and cors-test: layers, slow endpoint -/

/-- The framework layers the examples register with `.layer(...)`.  The four
concrete constructors are the ones cors-test registers; `timeout` is the
framework's request-timeout layer, which no example ever registers. -/
inductive Layer
  | cors
  | requestId
  | tracingLayer
  | rateLimit (maxRequests : Nat) (perSecs : Nat)
  | timeout (secs : Nat)
  deriving Repr, DecidableEq

def Layer.isTimeout : Layer → Bool
  | .timeout _ => true
  | _ => false

/-- The layers cors-test's `main` registers, in registration order:
`CorsLayer::permissive()`, `RequestIdLayer::new()`, `TracingLayer::new()`,
`RateLimitLayer::new(100, Duration::from_secs(60))`. -/
def cors_test_layers : List Layer :=
  [.cors, .requestId, .tracingLayer, .rateLimit 100 60]

/-- The layers phase11-demo's `main` registers before `run`: none — its main
is `RustApi::auto().run("127.0.0.1:3000")` with no `.layer(...)` call. -/
def phase11_layers : List Layer :=
  []

/-- `slow_endpoint`: sleeps `Duration::from_secs(35)`, then returns the
static string.  Modelled as (seconds slept, body returned). -/
def slow_endpoint : Nat × String :=
  (35, "This should timeout")

/-- The timeout the `slow_endpoint` comment intends: "This would timeout with
a 30s timeout". -/
def intended_timeout_secs : Nat :=
  30

/-! ## Bind addresses passed to `run` -/

def hello_world_bind : String := "0.0.0.0:8080"

def graphql_bind : String := "127.0.0.1:8080"

def cors_test_bind : String := "127.0.0.1:3030"

def phase11_bind : String := "127.0.0.1:3000"

def micro_user_bind : String := "127.0.0.1:8081"

def micro_order_bind : String := "127.0.0.1:8082"

def micro_gateway_bind : String := "127.0.0.1:8080"

def rate_limit_bind : String := "127.0.0.1:8080"

def templates_bind : String := "127.0.0.1:8080"

/-- Every address any example passes to `run`, one entry per `run` call. -/
def all_bind_addrs : List String :=
  [hello_world_bind, graphql_bind, cors_test_bind, phase11_bind,
   micro_user_bind, micro_order_bind, micro_gateway_bind,
   rate_limit_bind, templates_bind]

/-- Decimal value of a digit string, `none` on a non-digit. -/
def digitsToNat (ds : List Char) : Option Nat :=
  ds.foldl
    (fun acc c =>
      acc.bind fun n =>
        if c.isDigit then some (n * 10 + (c.toNat - 48)) else none)
    (some 0)

/-- The port of a `host:port` bind address: the digits after the last colon
(`none` when the address has no colon). -/
def portOfAddr (addr : String) : Option Nat :=
  let ds := (addr.data.reverse.takeWhile (fun c => c ≠ ':')).reverse
  if ds.length = addr.data.length then none else digitsToNat ds

end RustApiExamples

namespace RustApiExamples

/-- Claim C1: for every path parameter string `name`, the `hello` handler of
the hello-world example returns a `Message` whose `greeting` field equals
`"Hello, "` followed by `name` followed by `"!"`; in particular for
`name = "World"` the response is `{greeting := "Hello, World!"}`. -/
theorem hello_greeting (name : String) :
    (hello name).greeting = "Hello, " ++ name ++ "!" ∧
    hello "World" = { greeting := "Hello, World!" } := by
  constructor
  · rfl
  · rfl

/-- Flattening a map of singleton request lists yields one request per call. -/
theorem flatten_map_singleton {α β : Type} (f : α → β) (l : List α) :
    (l.map fun x => [f x]).flatten = l.map f := by
  induction l with
  | nil => rfl
  | cons a t ih => simp [ih]

/-- Claim C3: the gateway implements no load balancing.  Each
`proxy_get_user` call sends exactly one outbound request, always to the fixed
address `http://127.0.0.1:8081/users/{id}` (and `proxy_get_order` to
`http://127.0.0.1:8082/orders/{id}`); across any sequence of inbound requests
the outbound trace is one fixed-address request per call with no alternation
between upstream addresses, and the success response is a `GatewayResponse`
with `service = "user-service"` (resp. `"order-service"`) and `data` the
serialization of the decoded upstream body. -/
theorem gateway_no_load_balancing (id : Nat) (u : User) (o : Order)
    (ids : List Nat) :
    proxy_get_user_requests id = [user_service_url id] ∧
    user_service_url id = "http://127.0.0.1:8081/users/" ++ toString id ∧
    proxy_get_order_requests id = [order_service_url id] ∧
    order_service_url id = "http://127.0.0.1:8082/orders/" ++ toString id ∧
    (proxy_get_user_requests id).length = 1 ∧
    (proxy_get_order_requests id).length = 1 ∧
    gateway_user_trace ids = ids.map user_service_url ∧
    gateway_order_trace ids = ids.map order_service_url ∧
    proxy_get_user_response u =
      { service := "user-service", data := u.toJson } ∧
    proxy_get_order_response o =
      { service := "order-service", data := o.toJson } := by
  refine ⟨rfl, rfl, rfl, rfl, rfl, rfl, ?_, ?_, rfl, rfl⟩
  · exact flatten_map_singleton user_service_url ids
  · exact flatten_map_singleton order_service_url ids

/-- Claim C4: every failure path in the embedded handlers is a panic
(`none`), never a structured error value: a send or decode failure of the
gateway's outbound call, a poisoned-lock acquisition in `get_book`, and a
serialization failure in `graphql_handler` each abort the request with
outcome `none`, while the success branches produce the plain response. -/
theorem handlers_panic_on_failure (db : Database) (id : Nat) (u : User)
    (o : Order) (s : String) :
    proxy_get_user_run .sendError = none ∧
    proxy_get_user_run .decodeError = none ∧
    proxy_get_order_run .sendError = none ∧
    proxy_get_order_run .decodeError = none ∧
    proxy_get_user_run (.ok u) = some (proxy_get_user_response u) ∧
    proxy_get_order_run (.ok o) = some (proxy_get_order_response o) ∧
    get_book_run true db id = none ∧
    get_book_run false db id = some (db.get_book id).1 ∧
    graphql_handler_run none = none ∧
    graphql_handler_run (some s) = some { response := s } :=
  ⟨rfl, rfl, rfl, rfl, rfl, rfl, rfl, rfl, rfl, rfl⟩

/-- Claim C5: the phase11 demo's `slow_endpoint` sleeps exactly 35 seconds,
then returns `"This should timeout"`; 35 strictly exceeds the 30-second
timeout its comment intends, and phase11's `main` registers no layer at all
before `run` — in particular no timeout layer. -/
theorem phase11_slow_endpoint_no_timeout :
    slow_endpoint = (35, "This should timeout") ∧
    intended_timeout_secs < slow_endpoint.1 ∧
    phase11_layers = [] ∧
    ∀ l ∈ phase11_layers, l.isTimeout = false := by
  refine ⟨rfl, by decide, rfl, ?_⟩
  intro l h
  simp [phase11_layers] at h

/-- Claim C7 counterexample: in `Database::add_book`, the write lock on the
`next_book_id` counter is NOT released before the write lock on the books map
is taken — the `let`-bound counter guard lives to the end of the function, so
its release comes after the books-map critical section, not before it. -/
theorem add_book_counter_lock_held_across_insert :
    releasedBeforeAcquired add_book_lock_trace
      .nextBookIdLock .booksLock = false ∧
    heldWhenAcquired add_book_lock_trace
      .nextBookIdLock .booksLock = true := by
  decide

/-- Claim C7 (amended): every lock any `Database` operation acquires is
released within that same operation (no lock is held across an operation's
boundary); the read guards of `get_book` and `get_all_books` are released at
the end of their single statement; but within `add_book` the counter write
lock is still held when the books write lock is acquired — it is released
only at function return, after the books-map insert, not immediately after
the counter increment. -/
theorem graphql_lock_scoping :
    lockScopedToOperation add_book_lock_trace = true ∧
    lockScopedToOperation get_book_lock_trace = true ∧
    lockScopedToOperation get_all_books_lock_trace = true ∧
    heldWhenAcquired add_book_lock_trace .nextBookIdLock .booksLock = true ∧
    releasedBeforeAcquired add_book_lock_trace
      .nextBookIdLock .booksLock = false ∧
    get_book_lock_trace =
      [.acquireRead .booksLock, .releaseRead .booksLock] := by
  decide

/-- Claim C6: the bind addresses passed to `run` carry exactly the ports the
spec lists and no others — cors-test binds port 3030, the phase11 demo 3000,
the microservices example 8080 (gateway), 8081 (user service) and 8082 (order
service), and hello-world, graphql-api, rate-limit and templates each bind
port 8080; every `run` call's port is among {3030, 3000, 8080, 8081, 8082}
and every listed port is bound by some `run` call. -/
theorem bind_ports_exact :
    portOfAddr cors_test_bind = some 3030 ∧
    portOfAddr phase11_bind = some 3000 ∧
    portOfAddr micro_gateway_bind = some 8080 ∧
    portOfAddr micro_user_bind = some 8081 ∧
    portOfAddr micro_order_bind = some 8082 ∧
    portOfAddr hello_world_bind = some 8080 ∧
    portOfAddr graphql_bind = some 8080 ∧
    portOfAddr rate_limit_bind = some 8080 ∧
    portOfAddr templates_bind = some 8080 ∧
    (∀ a ∈ all_bind_addrs,
      ∃ p ∈ [3030, 3000, 8080, 8081, 8082], portOfAddr a = some p) ∧
    (∀ p ∈ [3030, 3000, 8080, 8081, 8082],
      ∃ a ∈ all_bind_addrs, portOfAddr a = some p) := by
  decide

end RustApiExamples

namespace RustApiExamples

theorem hmLookup_cons {V : Type} (k1 : Nat) (v1 : V) (t : List (Nat × V))
    (k : Nat) :
    hmLookup ((k1, v1) :: t) k = if k1 = k then some v1 else hmLookup t k := by
  unfold hmLookup
  by_cases h : k1 = k
  · rw [List.find?_cons_of_pos _ (by simp [h]), if_pos h]
    rfl
  · rw [List.find?_cons_of_neg _ (by simp [h]), if_neg h]

theorem hmLookup_eq_some_iff_mem {V : Type} (m : List (Nat × V)) (k : Nat)
    (v : V) (h : (m.map Prod.fst).Nodup) :
    hmLookup m k = some v ↔ (k, v) ∈ m := by
  induction m with
  | nil => simp [hmLookup]
  | cons p t ih =>
    obtain ⟨k1, v1⟩ := p
    rw [List.map_cons, List.nodup_cons] at h
    obtain ⟨hk1, hnd⟩ := h
    rw [hmLookup_cons, List.mem_cons]
    by_cases hkk : k1 = k
    · subst hkk
      rw [if_pos rfl]
      constructor
      · intro hv
        injection hv with hv
        exact Or.inl (by rw [hv])
      · rintro (hp | hmem)
        · injection hp with h1 h2
          rw [h2]
        · exact absurd (List.mem_map_of_mem Prod.fst hmem) hk1
    · rw [if_neg hkk, ih hnd]
      constructor
      · exact Or.inr
      · rintro (hp | hmem)
        · cases hp
          exact absurd rfl hkk
        · exact hmem

theorem hmLookup_hmInsert_self {V : Type} (m : List (Nat × V)) (k : Nat)
    (v : V) : hmLookup (hmInsert m k v) k = some v := by
  unfold hmInsert
  induction m with
  | nil => rw [List.filter_nil, List.nil_append, hmLookup_cons, if_pos rfl]
  | cons p t ih =>
    obtain ⟨k1, v1⟩ := p
    by_cases hp : k1 = k
    · rw [List.filter_cons_of_neg (by simp [hp])]
      exact ih
    · rw [List.filter_cons_of_pos (by simp [hp]), List.cons_append,
        hmLookup_cons, if_neg hp]
      exact ih

theorem hmLookup_hmInsert_ne {V : Type} (m : List (Nat × V)) (k : Nat)
    (v : V) (j : Nat) (h : j ≠ k) :
    hmLookup (hmInsert m k v) j = hmLookup m j := by
  unfold hmInsert
  induction m with
  | nil =>
    rw [List.filter_nil, List.nil_append, hmLookup_cons,
      if_neg (fun he => h he.symm)]
  | cons p t ih =>
    obtain ⟨k1, v1⟩ := p
    by_cases hp : k1 = k
    · rw [List.filter_cons_of_neg (by simp [hp]), ih, hmLookup_cons,
        if_neg (fun he => h (hp ▸ he).symm)]
    · rw [List.filter_cons_of_pos (by simp [hp]), List.cons_append,
        hmLookup_cons, hmLookup_cons]
      by_cases hj : k1 = j
      · rw [if_pos hj, if_pos hj]
      · rw [if_neg hj, if_neg hj]
        exact ih

theorem add_book_books_eq (db : Database) (t a : String) (y : Nat)
    (h : ∀ k ∈ db.books.map Prod.fst, k < db.next_book_id) :
    ((db.add_book t a y).2).books =
      db.books ++ [(db.next_book_id, (db.add_book t a y).1)] := by
  show hmInsert db.books db.next_book_id _ = _
  unfold hmInsert
  congr 1
  apply List.filter_eq_self.mpr
  intro p hp
  simp only [ne_eq, decide_eq_true_eq]
  exact Nat.ne_of_lt (h p.1 (List.mem_map_of_mem Prod.fst hp))

theorem add_book_preserves_inv (db : Database) (t a : String) (y : Nat)
    (h : db.BookInv) : ((db.add_book t a y).2).BookInv := by
  obtain ⟨hlt, hnd⟩ := h
  have hb := add_book_books_eq db t a y hlt
  constructor
  · intro k hk
    rw [hb, List.map_append] at hk
    rcases List.mem_append.mp hk with hk | hk
    · exact Nat.lt_succ_of_lt (hlt k hk)
    · simp only [List.map_cons, List.map_nil, List.mem_singleton] at hk
      subst hk
      exact Nat.lt_succ_self _
  · rw [hb, List.map_append]
    refine hnd.append ?_ ?_
    · simp
    · intro x hx hx2
      simp only [List.map_cons, List.map_nil, List.mem_singleton] at hx2
      subst hx2
      exact absurd (hlt _ hx) (Nat.lt_irrefl _)

theorem bookInv_new : Database.new.BookInv := by
  decide

theorem reachable_inv (db : Database) (h : db.Reachable) : db.BookInv := by
  induction h with
  | seed => exact bookInv_new
  | step db t a y _ ih => exact add_book_preserves_inv db t a y ih

theorem runAdds_inv (reqs : List (String × String × Nat)) (db : Database)
    (h : db.BookInv) : ((runAdds db reqs).1).BookInv := by
  induction reqs generalizing db with
  | nil => exact h
  | cons r rest ih =>
    obtain ⟨t, a, y⟩ := r
    exact ih _ (add_book_preserves_inv db t a y h)

theorem runAdds_ids (reqs : List (String × String × Nat)) (db : Database) :
    (runAdds db reqs).2.map Book.id = List.range' db.next_book_id reqs.length := by
  induction reqs generalizing db with
  | nil => rfl
  | cons r rest ih =>
    obtain ⟨t, a, y⟩ := r
    show (db.add_book t a y).1.id :: (runAdds (db.add_book t a y).2 rest).2.map Book.id = _
    rw [ih]
    rfl

end RustApiExamples

namespace RustApiExamples

theorem containsSub_nil_needle (hay : List Char) :
    containsSub [] hay = true := by
  cases hay with
  | nil => rfl
  | cons d ds => rfl

/-- Claim C2: starting from the seeded state (books 1 and 2, counter 3),
every state produced by a sequence of `add_book` calls satisfies the
catalogue invariant — `next_book_id` strictly greater than every stored key
and no two books sharing an id — and the ids the calls return are strictly
increasing in call order. -/
theorem catalogue_ids_unique_and_increasing
    (reqs : List (String × String × Nat)) :
    Database.new.next_book_id = 3 ∧
    Database.new.books.map Prod.fst = [1, 2] ∧
    ((runAdds Database.new reqs).1).BookInv ∧
    ((runAdds Database.new reqs).2.map Book.id).Pairwise (· < ·) := by
  refine ⟨rfl, by decide, runAdds_inv reqs Database.new bookInv_new, ?_⟩
  rw [runAdds_ids]
  exact List.pairwise_lt_range' _ _

/-- Claim C8: the query operations are pure lookups — `get_book`,
`get_all_books` and `search_books` return the database unchanged (books,
authors and both counters identical), and `get_book id` returns `some b`
exactly when the books map binds `id` to `b`. -/
theorem graphql_queries_pure (db : Database) (id : Nat) (q : String)
    (b : Book) (h : (db.books.map Prod.fst).Nodup) :
    (db.get_book id).2 = db ∧
    db.get_all_books.2 = db ∧
    (QueryRoot.search_books db q).2 = db ∧
    ((db.get_book id).1 = some b ↔ (id, b) ∈ db.books) := by
  refine ⟨rfl, rfl, rfl, ?_⟩
  exact hmLookup_eq_some_iff_mem db.books id b h

/-- Witness for C8 at the seeded database, id 1 and its seeded book. -/
theorem graphql_queries_pure_witness :
    (Database.new.books.map Prod.fst).Nodup ∧
    ((Database.new.get_book 1).2 = Database.new ∧
      Database.new.get_all_books.2 = Database.new ∧
      (QueryRoot.search_books Database.new "rust").2 = Database.new ∧
      ((Database.new.get_book 1).1 =
          some { id := 1, title := "The Rust Programming Language",
                 author := "Steve Klabnik", year := 2018 } ↔
        (1, ({ id := 1, title := "The Rust Programming Language",
               author := "Steve Klabnik", year := 2018 } : Book)) ∈
          Database.new.books)) :=
  ⟨by decide, graphql_queries_pure Database.new 1 "rust" _ (by decide)⟩

/-- Claim C9: `search_books` returns exactly the books whose lowercased
title contains the lowercased query as a substring — a sub-list of
`get_all_books` — and for the empty query it returns every book. -/
theorem search_books_spec (db : Database) (q : String) (b : Book) :
    (QueryRoot.search_books db q).1 =
      db.get_all_books.1.filter
        (fun bk => strContains (toLowercase bk.title) (toLowercase q)) ∧
    (QueryRoot.search_books db q).1.Sublist db.get_all_books.1 ∧
    (b ∈ (QueryRoot.search_books db q).1 ↔
      b ∈ db.get_all_books.1 ∧
        strContains (toLowercase b.title) (toLowercase q) = true) ∧
    (QueryRoot.search_books db "").1 = db.get_all_books.1 := by
  refine ⟨rfl, List.filter_sublist _, List.mem_filter, ?_⟩
  show db.get_all_books.1.filter _ = db.get_all_books.1
  apply List.filter_eq_self.mpr
  intro bk _
  show strContains (toLowercase bk.title) (toLowercase "") = true
  exact containsSub_nil_needle _

/-- Claim C10: `add_book`'s postcondition — on every reachable state the
returned book carries the pre-call `next_book_id` and the given fields; the
counter increases by exactly one; the authors map and `next_author_id` are
untouched; and the books map is the old map extended with exactly the one
new binding, all previously stored books unchanged. -/
theorem add_book_post (db : Database) (t a : String) (y : Nat)
    (hr : db.Reachable) :
    (db.add_book t a y).1.id = db.next_book_id ∧
    (db.add_book t a y).1.title = t ∧
    (db.add_book t a y).1.author = a ∧
    (db.add_book t a y).1.year = y ∧
    ((db.add_book t a y).2).next_book_id = db.next_book_id + 1 ∧
    ((db.add_book t a y).2).authors = db.authors ∧
    ((db.add_book t a y).2).next_author_id = db.next_author_id ∧
    hmLookup ((db.add_book t a y).2).books db.next_book_id =
      some (db.add_book t a y).1 ∧
    (∀ k, k ≠ db.next_book_id →
      hmLookup ((db.add_book t a y).2).books k = hmLookup db.books k) ∧
    ((db.add_book t a y).2).books =
      db.books ++ [(db.next_book_id, (db.add_book t a y).1)] := by
  refine ⟨rfl, rfl, rfl, rfl, rfl, rfl, rfl, ?_, ?_, ?_⟩
  · exact hmLookup_hmInsert_self db.books db.next_book_id _
  · intro k hk
    exact hmLookup_hmInsert_ne db.books db.next_book_id _ k hk
  · exact add_book_books_eq db t a y (reachable_inv db hr).1

/-- Witness for C10: `add_book` applied to the seeded database. -/
theorem add_book_post_witness :
    Database.new.Reachable ∧
    ((Database.new.add_book "New Book" "New Author" 2024).1.id =
        Database.new.next_book_id ∧
      (Database.new.add_book "New Book" "New Author" 2024).1.title =
        "New Book" ∧
      (Database.new.add_book "New Book" "New Author" 2024).1.author =
        "New Author" ∧
      (Database.new.add_book "New Book" "New Author" 2024).1.year = 2024 ∧
      ((Database.new.add_book "New Book" "New Author" 2024).2).next_book_id =
        Database.new.next_book_id + 1 ∧
      ((Database.new.add_book "New Book" "New Author" 2024).2).authors =
        Database.new.authors ∧
      ((Database.new.add_book "New Book" "New Author"
            2024).2).next_author_id =
        Database.new.next_author_id ∧
      hmLookup ((Database.new.add_book "New Book" "New Author"
            2024).2).books Database.new.next_book_id =
        some (Database.new.add_book "New Book" "New Author" 2024).1 ∧
      (∀ k, k ≠ Database.new.next_book_id →
        hmLookup ((Database.new.add_book "New Book" "New Author"
              2024).2).books k =
          hmLookup Database.new.books k) ∧
      ((Database.new.add_book "New Book" "New Author" 2024).2).books =
        Database.new.books ++
          [(Database.new.next_book_id,
            (Database.new.add_book "New Book" "New Author" 2024).1)]) :=
  ⟨Database.Reachable.seed,
    add_book_post Database.new "New Book" "New Author" 2024
      Database.Reachable.seed⟩

end RustApiExamples
